import Mathlib

/-!
Shallow embedding of `src/app.py` (a Flask video-transcription job runner)
and proofs about its behaviour.

External effects (HTTP fetch, the ffmpeg subprocess, the Whisper network
call, the webhook POST, filesystem sizes, unlink success) are supplied by
an explicit environment record; program state (staged files on disk, the
list of webhook delivery attempts, the process-wide `openai.api_key`
global) is threaded explicitly.  Python exceptions are `Except String`
values carrying the exception's message string.
-/

namespace ContentClipping

/-! ## Source Resolver: `extract_google_drive_file_id`, `get_download_url` -/

/-- Character class `[a-zA-Z0-9-_]` used by all three patterns in
`extract_google_drive_file_id`. -/
def idChar (c : Char) : Bool :=
  ('a' ≤ c && c ≤ 'z') || ('A' ≤ c && c ≤ 'Z') || ('0' ≤ c && c ≤ '9') ||
    c == '-' || c == '_'

/-- Greedy run of `idChar` characters, the capture of `([a-zA-Z0-9-_]+)`. -/
def takeIdChars : List Char → List Char
  | [] => []
  | c :: cs => if idChar c then c :: takeIdChars cs else []

/-- Attempt to match `lit([a-zA-Z0-9-_]+)` at the start of `s`; returns the
capture group on success. -/
def matchAt (lit s : List Char) : Option (List Char) :=
  if lit.isPrefixOf s then
    let cap := takeIdChars (s.drop lit.length)
    if cap.isEmpty then none else some cap
  else none

/-- `re.search` for a pattern of shape `lit([a-zA-Z0-9-_]+)`: try every start
position from the left, return the first successful match's capture. -/
def searchPat (lit : List Char) : List Char → Option (List Char)
  | [] => none
  | c :: rest =>
    match matchAt lit (c :: rest) with
    | some cap => some cap
    | none => searchPat lit rest

/-- The three patterns of `extract_google_drive_file_id`, in source order:
`/file/d/([a-zA-Z0-9-_]+)`, `id=([a-zA-Z0-9-_]+)`, `/open\?id=([a-zA-Z0-9-_]+)`
(the `\?` is a literal question mark). -/
def drivePatterns : List (List Char) :=
  ["/file/d/".toList, "id=".toList, "/open?id=".toList]

/-- `extract_google_drive_file_id(url)`: try each pattern in order (the
`for pattern in patterns` loop unrolled over the fixed three-pattern list),
return the first match's capture group, `None` if no pattern matches. -/
def extract_google_drive_file_id (url : String) : Option String :=
  match searchPat "/file/d/".toList url.toList with
  | some cap => some (String.mk cap)
  | none =>
    match searchPat "id=".toList url.toList with
    | some cap => some (String.mk cap)
    | none =>
      match searchPat "/open?id=".toList url.toList with
      | some cap => some (String.mk cap)
      | none => none

/-- `get_download_url(file_id)`. -/
def get_download_url (file_id : String) : String :=
  "https://drive.google.com/uc?export=download&id=" ++ file_id

/-! ## Transcoder: `convert_to_audio` -/

/-- Outcome of the `subprocess.run(['ffmpeg', ...], check=True, ...)` call,
supplied by the environment.  `procErr` is `subprocess.CalledProcessError`
(ffmpeg ran and exited non-zero) carrying its captured stderr and whether a
(possibly partial) output file was left behind; `notFound` is
`FileNotFoundError` (ffmpeg not installed / not on PATH). -/
inductive FfmpegOut where
  | ok
  | procErr (stderr : String) (madeOutput : Bool)
  | notFound
deriving DecidableEq

/-- Python `str.lower()` restricted to ASCII, as in the extension check. -/
def pyLower (s : String) : List Char :=
  s.toList.map Char.toLower

/-- `input_path.lower().endswith(('.mp3', '.wav', '.m4a', '.flac'))`. -/
def isAudioExt (input_path : String) : Bool :=
  ".mp3".toList.isSuffixOf (pyLower input_path) ||
  ".wav".toList.isSuffixOf (pyLower input_path) ||
  ".m4a".toList.isSuffixOf (pyLower input_path) ||
  ".flac".toList.isSuffixOf (pyLower input_path)

/-- `convert_to_audio(input_path, output_path)`.  Returns the path handed to
the transcriber (`Except.ok`) or the raised exception's message
(`Except.error`), together with the file set after the call: ffmpeg success
creates `output_path`; a failed run may leave a partial output behind. -/
def convert_to_audio (ff : FfmpegOut) (input_path output_path : String)
    (files : List String) : Except String String × List String :=
  match ff with
  | .ok => (.ok output_path, output_path :: files)
  | .procErr stderr madeOutput =>
    let files' := if madeOutput then output_path :: files else files
    if isAudioExt input_path then
      (.ok input_path, files')
    else
      (.error ("Could not convert video to audio format. FFmpeg error: " ++ stderr), files')
  | .notFound => (.ok input_path, files)

/-! ## Program state and environment -/

/-- One JSON value, as produced by `request.json` / consumed by `jsonify`.
`row_id` is caller-opaque (`string|integer` per the data model), so it is
kept as a `JVal` everywhere it is echoed. -/
inductive JVal where
  | null
  | bool (b : Bool)
  | num (n : Int)
  | str (s : String)
  | arr (xs : List JVal)
  | obj (fields : List (String × JVal))

/-- Webhook payload shapes built by `process_video_async`: the success body
`{status:"success", row_id, transcript, file_id}` and the error body
`{status:"error", row_id, error}`. -/
inductive Payload where
  | success (row_id : JVal) (transcript : String) (file_id : String)
  | failure (row_id : JVal) (error : String)

/-- Process / host state threaded through the pipeline: the staged files
present on disk, the webhook delivery attempts made so far (most recent
first, each entry one POST attempt to `callback_url`), and the process-wide
`openai.api_key` module global. -/
structure PState where
  files : List String
  sentWebhooks : List (String × Payload)
  openai_api_key : Option String

/-- Environment for one run: outcomes of the external effects.
`tempStem ++ ".tmp"` is the name handed out by
`tempfile.NamedTemporaryFile(delete=False, suffix='.tmp')`;
`downloadResult` is the outcome of `requests.get` + `raise_for_status` +
streaming (`Except.error` carries the raised exception's message);
`fileSize` is `os.path.getsize`; `whisperNet` the outcome of
`openai.Audio.transcribe`; `postResult` the outcome of `requests.post`
to the callback (transport error, or an HTTP status code). -/
structure Env where
  tempStem : String
  downloadResult : Except String Unit
  ffmpeg : FfmpegOut
  fileSize : String → Nat
  whisperNet : Except String String
  postResult : Except String Nat

/-! ## Fetcher: `download_file` -/

/-- `download_file(url, file_path)`: streams the body to `file_path` and
returns it, or re-raises the `requests` exception.  The destination file
already exists in the pipeline (created by `NamedTemporaryFile`), so the
file set is unchanged. -/
def download_file (res : Except String Unit) (_url file_path : String)
    (st : PState) : Except String String × PState :=
  match res with
  | .ok _ => (.ok file_path, st)
  | .error e => (.error e, st)

/-! ## Transcriber: `transcribe_with_whisper` -/

/-- Renders `f"{file_size / (1024*1024):.1f}"` (truncated to one decimal
rather than float-rounded; no theorem depends on the digits). -/
def mbStr (file_size : Nat) : String :=
  toString (file_size / (1024 * 1024)) ++ "." ++
    toString (file_size * 10 / (1024 * 1024) % 10)

/-- `transcribe_with_whisper(file_path, api_key)`.  Result: the transcript
or the raised exception's message (every inner exception is re-wrapped as
`"Whisper transcription failed: ..."`), paired with whether the network
call to the service was made.  Side effect: assigns the process-wide
`openai.api_key` global before anything else. -/
def transcribe_with_whisper (env : Env) (file_path api_key : String)
    (st : PState) : (Except String String × Bool) × PState :=
  let st := { st with openai_api_key := some api_key }
  let file_size := env.fileSize file_path
  if file_size > 25 * 1024 * 1024 then
    ((.error ("Whisper transcription failed: " ++
        "File too large for Whisper API: " ++ mbStr file_size ++ "MB (max 25MB)"),
      false), st)
  else
    match env.whisperNet with
    | .ok t => ((.ok t, true), st)
    | .error e => ((.error ("Whisper transcription failed: " ++ e), true), st)

/-! ## Notifier: `send_webhook` -/

/-- `response.raise_for_status()`: raises on a 4xx or 5xx status code. -/
def raise_for_status (code : Nat) : Except String Unit :=
  if 400 ≤ code ∧ code < 600 then .error ("HTTP error " ++ toString code)
  else .ok ()

/-- The body of `send_webhook`'s `try` block: the POST itself (which may
raise a transport error) followed by `raise_for_status`. -/
def send_webhook_attempt (post : Except String Nat) : Except String Nat := do
  let code ← post
  match raise_for_status code with
  | .error e => .error e
  | .ok _ => pure code

/-- `send_webhook(callback_url, data)`: makes exactly one POST attempt
(recorded in `sentWebhooks`); any exception from the attempt is caught and
swallowed, so the returned `Except` says whether the *caller* sees an
exception. -/
def send_webhook (post : Except String Nat) (callback_url : String)
    (data : Payload) (st : PState) : Except String Unit × PState :=
  let st := { st with sentWebhooks := (callback_url, data) :: st.sentWebhooks }
  match send_webhook_attempt post with
  | .ok _ => (.ok (), st)
  | .error _ => (.ok (), st)

/-! ## Job Orchestrator: `process_video_async` -/

/-- Python `str.replace(pat, rep)` for a non-empty `pat`: replace every
non-overlapping occurrence, scanning left to right. -/
def pyReplace (pat rep : List Char) : List Char → List Char
  | [] => []
  | c :: rest =>
    if h : pat ≠ [] ∧ pat.isPrefixOf (c :: rest) then
      rep ++ pyReplace pat rep (rest.drop (pat.length - 1))
    else
      c :: pyReplace pat rep rest
termination_by s => s.length
decreasing_by
  · have hp : 0 < pat.length := List.length_pos.mpr h.1
    simp only [List.length_drop, List.length_cons]
    omega
  · simp

/-- The `finally` block: `for p in [temp_path, audio_path]: try: if
os.path.exists(p): os.unlink(p) except: pass`.  `uo p = true` means the
unlink of `p` succeeds; a failed unlink leaves the file behind and the
exception is swallowed. -/
def cleanup (uo : String → Bool) (paths : List String)
    (files : List String) : List String :=
  paths.foldl (fun fs p => if uo p then fs.filter (fun q => q ≠ p) else fs) files

/-- Whether the download step succeeds in the given environment. -/
def downloadOk (env : Env) : Bool :=
  match env.downloadResult with
  | .ok _ => true
  | .error _ => false

/-- Whether `convert_to_audio` hands an audio path to the transcriber
rather than raising: ffmpeg succeeds, or is absent (`FileNotFoundError`
fallback), or fails on an input whose name already has a recognized audio
extension (`CalledProcessError` fallback). -/
def transcodeSucceeds (ff : FfmpegOut) (input_path : String) : Bool :=
  match ff with
  | .ok => true
  | .procErr _ _ => isAudioExt input_path
  | .notFound => true

/-- Whether a job's pipeline reaches the transcription stage: the reference
resolves to a file id, the download succeeds, and the transcode step
produces an audio path (by success or by either fallback). -/
def reachesTranscription (env : Env) (url : String) : Bool :=
  (extract_google_drive_file_id url).isSome &&
  (downloadOk env && transcodeSucceeds env.ffmpeg (env.tempStem ++ ".tmp"))

/-- One job's request parameters (`process_video_async`'s arguments). -/
structure Job where
  google_drive_url : String
  callback_url : String
  row_id : JVal
  openai_api_key : String

/-- Tail of the inner `try` block once an audio path is available:
transcribe, then (on success) send the success webhook.  Returns `none` on
success — the success webhook attempt has already been made — or `some e`
for the exception `e` that escapes to the outer handler. -/
def transcribe_and_notify (env : Env) (job : Job)
    (file_id final_audio_path : String) (st : PState) : Option String × PState :=
  match transcribe_with_whisper env final_audio_path job.openai_api_key st with
  | ((.error e, _), st) => (some e, st)
  | ((.ok transcript, _), st) =>
    match send_webhook env.postResult job.callback_url
        (.success job.row_id transcript file_id) st with
    | (.ok _, st) => (none, st)
    | (.error e, st) => (some e, st)

/-- The inner `try` block of `process_video_async` (download → convert →
transcribe → success webhook). -/
def inner_block (env : Env) (job : Job) (file_id temp_path audio_path : String)
    (st : PState) : Option String × PState :=
  match download_file env.downloadResult (get_download_url file_id) temp_path st with
  | (.error e, st) => (some e, st)
  | (.ok _, st) =>
    match convert_to_audio env.ffmpeg temp_path audio_path st.files with
    | (.error e, files') => (some e, { st with files := files' })
    | (.ok final_audio_path, files') =>
      transcribe_and_notify env job file_id final_audio_path { st with files := files' }

/-- `process_video_async(google_drive_url, callback_url, row_id,
openai_api_key)`: resolve the file id (a failure raises `ValueError`),
create the staging file, run the inner block, clean up both staged paths in
`finally`, and on any escaped exception send the error webhook from the
outer handler. -/
def process_video_async (env : Env) (uo : String → Bool) (job : Job)
    (st : PState) : PState :=
  match extract_google_drive_file_id job.google_drive_url with
  | none =>
    (send_webhook env.postResult job.callback_url
      (.failure job.row_id "Could not extract file ID from Google Drive URL") st).2
  | some file_id =>
    let temp_path := env.tempStem ++ ".tmp"
    let st := { st with files := temp_path :: st.files }
    let audio_path := String.mk (pyReplace ".tmp".toList ".mp3".toList temp_path.toList)
    let r := inner_block env job file_id temp_path audio_path st
    let st' := { r.2 with files := cleanup uo [temp_path, audio_path] r.2.files }
    match r.1 with
    | none => st'
    | some e =>
      (send_webhook env.postResult job.callback_url (.failure job.row_id e) st').2

/-! ## Intake Trigger: `process_video` -/

/-- Python runtime errors relevant to the handler: `TypeError` (membership
test or subscript on an unsupported type) and `KeyError` (missing dict
key). -/
inductive PyErr where
  | typeError
  | keyError
deriving DecidableEq

/-- Python's substring test `needle in s` on strings (true for the empty
needle, as in Python). -/
def pySubstr (needle : List Char) : List Char → Bool
  | [] => needle.isPrefixOf []
  | c :: rest => needle.isPrefixOf (c :: rest) || pySubstr needle rest

/-- Python's `needle in data` for a string needle against a JSON-decoded
value: key membership for a dict, element equality for a list, substring
test for a string, and a `TypeError` for `None`, booleans and numbers. -/
def pyContains (needle : String) : JVal → Except PyErr Bool
  | .obj fields => .ok (fields.any (fun kv => kv.1 == needle))
  | .arr xs =>
    .ok (xs.any (fun v => match v with | .str t => t == needle | _ => false))
  | .str s => .ok (pySubstr needle.toList s.toList)
  | _ => .error .typeError

/-- Python's `data[key]` for a string key: dict lookup (raising `KeyError`
when absent), `TypeError` on every other JSON value. -/
def pySubscript (key : String) : JVal → Except PyErr JVal
  | .obj fields =>
    match fields.find? (fun kv => kv.1 == key) with
    | some kv => .ok kv.2
    | none => .error .keyError
  | _ => .error .typeError

/-- The `required_fields` list, in source order. -/
def required_fields : List String :=
  ["google_drive_url", "callback_url", "row_id", "openai_api_key"]

/-- The validation loop `for field in required_fields: if field not in
data: return 400...`: the first field whose membership test is false, or a
raised `PyErr`. -/
def findMissing (data : JVal) : List String → Except PyErr (Option String)
  | [] => .ok none
  | f :: rest =>
    match pyContains f data with
    | .error e => .error e
    | .ok true => findMissing data rest
    | .ok false => .ok (some f)

/-- A handler response body: the `{error: ...}` shapes (validation message
or stringified unexpected exception) or the acceptance body
`{status:"processing", message, row_id}`. -/
inductive RespBody where
  | fieldError (msg : String)
  | internalError (e : PyErr)
  | accepted (row_id : JVal)

/-- The `POST /process-video` handler `process_video()` applied to the
JSON-decoded request body: returns `((status code, body), job started?)`,
where the second component records whether a background
`process_video_async` thread was spawned. -/
def process_video (data : JVal) : (Nat × RespBody) × Bool :=
  match findMissing data required_fields with
  | .error e => ((500, .internalError e), false)
  | .ok (some f) => ((400, .fieldError ("Missing required field: " ++ f)), false)
  | .ok none =>
    match pySubscript "google_drive_url" data, pySubscript "callback_url" data,
        pySubscript "row_id" data, pySubscript "openai_api_key" data with
    | .ok _, .ok _, .ok row_id, .ok _ => ((200, .accepted row_id), true)
    | .error e, _, _, _ => ((500, .internalError e), false)
    | _, .error e, _, _ => ((500, .internalError e), false)
    | _, _, .error e, _ => ((500, .internalError e), false)
    | _, _, _, .error e => ((500, .internalError e), false)

/-! ## Helper lemmas -/

lemma send_webhook_sent (post : Except String Nat) (cb : String) (d : Payload)
    (st : PState) :
    (send_webhook post cb d st).2.sentWebhooks = (cb, d) :: st.sentWebhooks := by
  unfold send_webhook
  cases send_webhook_attempt post <;> rfl

lemma send_webhook_files (post : Except String Nat) (cb : String) (d : Payload)
    (st : PState) : (send_webhook post cb d st).2.files = st.files := by
  unfold send_webhook
  cases send_webhook_attempt post <;> rfl

lemma send_webhook_key (post : Except String Nat) (cb : String) (d : Payload)
    (st : PState) :
    (send_webhook post cb d st).2.openai_api_key = st.openai_api_key := by
  unfold send_webhook
  cases send_webhook_attempt post <;> rfl

lemma send_webhook_no_raise (post : Except String Nat) (cb : String) (d : Payload)
    (st : PState) : (send_webhook post cb d st).1 = .ok () := by
  unfold send_webhook
  cases send_webhook_attempt post <;> rfl

lemma transcribe_sent (env : Env) (fp key : String) (st : PState) :
    (transcribe_with_whisper env fp key st).2.sentWebhooks = st.sentWebhooks := by
  unfold transcribe_with_whisper
  dsimp only
  split <;> (try split) <;> rfl

lemma transcribe_files (env : Env) (fp key : String) (st : PState) :
    (transcribe_with_whisper env fp key st).2.files = st.files := by
  unfold transcribe_with_whisper
  dsimp only
  split <;> (try split) <;> rfl

lemma transcribe_key (env : Env) (fp key : String) (st : PState) :
    (transcribe_with_whisper env fp key st).2.openai_api_key = some key := by
  unfold transcribe_with_whisper
  dsimp only
  split <;> (try split) <;> rfl

/-- State evolution across the transcribe-and-notify tail: the file set is
untouched, the process-wide key is set to the job's credential, and a
webhook attempt is made exactly when the tail succeeds. -/
lemma transcribe_and_notify_state (env : Env) (job : Job) (fid fap : String)
    (st : PState) :
    (transcribe_and_notify env job fid fap st).2.files = st.files ∧
    (transcribe_and_notify env job fid fap st).2.openai_api_key =
      some job.openai_api_key ∧
    ((transcribe_and_notify env job fid fap st).1 = none →
      ∃ p, (transcribe_and_notify env job fid fap st).2.sentWebhooks =
        p :: st.sentWebhooks) ∧
    (∀ e, (transcribe_and_notify env job fid fap st).1 = some e →
      (transcribe_and_notify env job fid fap st).2.sentWebhooks = st.sentWebhooks) := by
  unfold transcribe_and_notify
  rcases htr : transcribe_with_whisper env fap job.openai_api_key st with ⟨⟨res, nc⟩, st₂⟩
  have hf₂ : st₂.files = st.files := by
    have h := transcribe_files env fap job.openai_api_key st
    rw [htr] at h; exact h
  have hs₂ : st₂.sentWebhooks = st.sentWebhooks := by
    have h := transcribe_sent env fap job.openai_api_key st
    rw [htr] at h; exact h
  have hk₂ : st₂.openai_api_key = some job.openai_api_key := by
    have h := transcribe_key env fap job.openai_api_key st
    rw [htr] at h; exact h
  cases res with
  | error e => simp [hf₂, hs₂, hk₂]
  | ok t =>
    dsimp only
    rcases hsw : send_webhook env.postResult job.callback_url
        (.success job.row_id t fid) st₂ with ⟨r, st₃⟩
    have hr : r = .ok () := by
      have h := send_webhook_no_raise env.postResult job.callback_url
        (.success job.row_id t fid) st₂
      rw [hsw] at h; exact h
    have hf₃ : st₃.files = st₂.files := by
      have h := send_webhook_files env.postResult job.callback_url
        (.success job.row_id t fid) st₂
      rw [hsw] at h; exact h
    have hs₃ : st₃.sentWebhooks =
        (job.callback_url, Payload.success job.row_id t fid) :: st₂.sentWebhooks := by
      have h := send_webhook_sent env.postResult job.callback_url
        (.success job.row_id t fid) st₂
      rw [hsw] at h; exact h
    have hk₃ : st₃.openai_api_key = st₂.openai_api_key := by
      have h := send_webhook_key env.postResult job.callback_url
        (.success job.row_id t fid) st₂
      rw [hsw] at h; exact h
    subst hr
    dsimp only
    refine ⟨by simp [hf₃, hf₂], by simp [hk₃, hk₂],
      fun _ => ⟨(job.callback_url, .success job.row_id t fid), by simp [hs₃, hs₂]⟩,
      fun e he => by simp at he⟩

/-- State evolution across the inner `try` block: the file set gains at most
the `audio_path` output; on an escaped exception no webhook attempt has been
made yet, and on success exactly one (the success notification) has. -/
lemma inner_block_state (env : Env) (job : Job) (fid tp ap : String) (st : PState) :
    ((inner_block env job fid tp ap st).2.files = st.files ∨
      (inner_block env job fid tp ap st).2.files = ap :: st.files) ∧
    ((inner_block env job fid tp ap st).1 = none →
      ∃ p, (inner_block env job fid tp ap st).2.sentWebhooks = p :: st.sentWebhooks) ∧
    (∀ e, (inner_block env job fid tp ap st).1 = some e →
      (inner_block env job fid tp ap st).2.sentWebhooks = st.sentWebhooks) := by
  unfold inner_block download_file
  rcases env.downloadResult with e | u
  · simp
  · simp only
    rcases hff : env.ffmpeg with _ | ⟨s, m⟩ | _
    · -- ffmpeg succeeded: audio_path written, transcribe the output
      simp only [convert_to_audio]
      have h := transcribe_and_notify_state env job fid ap { st with files := ap :: st.files }
      refine ⟨Or.inr h.1, fun hn => ?_, fun e hs => ?_⟩
      · obtain ⟨p, hp⟩ := h.2.2.1 hn
        exact ⟨p, hp⟩
      · exact h.2.2.2 e hs
    · -- ffmpeg ran and failed: audio-extension fallback or hard failure
      simp only [convert_to_audio]
      cases hae : isAudioExt tp <;> cases m <;> simp only [if_pos, if_neg, ite_true,
        ite_false, Bool.false_eq_true, not_false_eq_true, reduceIte]
      · simp
      · simp
      · have h := transcribe_and_notify_state env job fid tp { st with files := st.files }
        exact ⟨Or.inl h.1, h.2.2.1, h.2.2.2⟩
      · have h := transcribe_and_notify_state env job fid tp { st with files := ap :: st.files }
        exact ⟨Or.inr h.1, h.2.2.1, h.2.2.2⟩
    · -- ffmpeg not installed: fall back to the original file
      simp only [convert_to_audio]
      have h := transcribe_and_notify_state env job fid tp { st with files := st.files }
      exact ⟨Or.inl h.1, h.2.2.1, h.2.2.2⟩

/-- The process-wide `openai.api_key` global across the inner `try` block:
set to the job's credential exactly when control reaches
`transcribe_with_whisper`, untouched otherwise. -/
lemma inner_block_key (env : Env) (job : Job) (fid tp ap : String) (st : PState) :
    ((downloadOk env && transcodeSucceeds env.ffmpeg tp) = true →
      (inner_block env job fid tp ap st).2.openai_api_key =
        some job.openai_api_key) ∧
    ((downloadOk env && transcodeSucceeds env.ffmpeg tp) = false →
      (inner_block env job fid tp ap st).2.openai_api_key =
        st.openai_api_key) := by
  unfold inner_block download_file
  rcases hdl : env.downloadResult with e | u
  · constructor
    · intro hc
      rw [downloadOk, hdl] at hc
      simp at hc
    · intro _
      rfl
  · dsimp only
    rcases hff : env.ffmpeg with _ | ⟨s, m⟩ | _
    · simp only [convert_to_audio]
      constructor
      · intro _
        exact (transcribe_and_notify_state env job fid ap
          { st with files := ap :: st.files }).2.1
      · intro hc
        rw [downloadOk, hdl, transcodeSucceeds] at hc
        simp at hc
    · simp only [convert_to_audio]
      cases hae : isAudioExt tp
      · constructor
        · intro hc
          rw [downloadOk, hdl, transcodeSucceeds, hae] at hc
          simp at hc
        · intro _
          cases m <;> rfl
      · rw [if_pos rfl]
        constructor
        · intro _
          exact (transcribe_and_notify_state env job fid tp
            { st with files := if m = true then ap :: st.files else st.files }).2.1
        · intro hc
          rw [downloadOk, hdl, transcodeSucceeds, hae] at hc
          simp at hc
    · simp only [convert_to_audio]
      constructor
      · intro _
        exact (transcribe_and_notify_state env job fid tp
          { st with files := st.files }).2.1
      · intro hc
        rw [downloadOk, hdl, transcodeSucceeds] at hc
        simp at hc

lemma cleanup_true_subset (tp ap q : String) (files : List String)
    (h : q ∈ cleanup (fun _ => true) [tp, ap] files) :
    q ∈ files ∧ q ≠ tp ∧ q ≠ ap := by
  simp only [cleanup, List.foldl, if_pos] at h
  simp only [List.mem_filter, decide_eq_true_eq] at h
  tauto

lemma cleanup_sent_irrelevant (uo : String → Bool) (paths : List String)
    (st : PState) (fs : List String) :
    ({ st with files := fs } : PState).sentWebhooks = st.sentWebhooks := rfl

/-! ## Claim theorems -/

/-- C1: for every accepted job, exactly one Outcome is produced and exactly
one notification delivery attempt is made to the callback endpoint,
regardless of which pipeline stage (resolve, fetch, transcode, transcribe)
fails: over any environment (hence any combination of stage outcomes),
`process_video_async` appends exactly one webhook delivery attempt — whose
payload is the job's single success or failure Outcome — to the state. -/
theorem c1_exactly_one_outcome_and_notification (env : Env) (uo : String → Bool)
    (job : Job) (st : PState) :
    ∃ p, (process_video_async env uo job st).sentWebhooks = p :: st.sentWebhooks := by
  unfold process_video_async
  cases hex : extract_google_drive_file_id job.google_drive_url with
  | none =>
    exact ⟨_, send_webhook_sent ..⟩
  | some fid =>
    dsimp only
    obtain ⟨_, hnone, hsome⟩ := inner_block_state env job fid (env.tempStem ++ ".tmp")
      (String.mk (pyReplace ".tmp".toList ".mp3".toList (env.tempStem ++ ".tmp").toList))
      { st with files := (env.tempStem ++ ".tmp") :: st.files }
    cases hib : (inner_block env job fid (env.tempStem ++ ".tmp")
        (String.mk (pyReplace ".tmp".toList ".mp3".toList (env.tempStem ++ ".tmp").toList))
        { st with files := (env.tempStem ++ ".tmp") :: st.files }).1 with
    | none =>
      obtain ⟨p, hp⟩ := hnone hib
      exact ⟨p, hp⟩
    | some e =>
      refine ⟨(job.callback_url, .failure job.row_id e), ?_⟩
      rw [send_webhook_sent]
      exact congrArg (fun l => (job.callback_url, Payload.failure job.row_id e) :: l)
        (hsome e hib)

/-- C2: for every job reaching a terminal state, every staged temporary
file created during the job is removed before disposal (when the unlink
calls succeed, the final file set is contained in the initial one — nothing
created during the job survives), and cleanup failures are swallowed and
never change the already-computed Outcome (the webhook attempts are
identical under any two unlink oracles). -/
theorem c2_cleanup_and_outcome_preserved (env : Env) (uo uo' : String → Bool)
    (job : Job) (st : PState) :
    (process_video_async env (fun _ => true) job st).files.all
      (fun q => st.files.contains q) = true ∧
    (process_video_async env uo job st).sentWebhooks =
      (process_video_async env uo' job st).sentWebhooks := by
  constructor
  · rw [List.all_eq_true]
    intro q hq
    unfold process_video_async at hq
    cases hex : extract_google_drive_file_id job.google_drive_url with
    | none =>
      rw [hex] at hq
      rw [show ((send_webhook env.postResult job.callback_url
        (.failure job.row_id "Could not extract file ID from Google Drive URL") st).2).files
          = st.files from send_webhook_files ..] at hq
      simpa using hq
    | some fid =>
      rw [hex] at hq
      dsimp only at hq
      obtain ⟨hfiles, _, _⟩ := inner_block_state env job fid (env.tempStem ++ ".tmp")
        (String.mk (pyReplace ".tmp".toList ".mp3".toList (env.tempStem ++ ".tmp").toList))
        { st with files := (env.tempStem ++ ".tmp") :: st.files }
      cases hib : (inner_block env job fid (env.tempStem ++ ".tmp")
          (String.mk (pyReplace ".tmp".toList ".mp3".toList (env.tempStem ++ ".tmp").toList))
          { st with files := (env.tempStem ++ ".tmp") :: st.files }).1 with
      | none =>
        rw [hib] at hq
        dsimp only at hq
        have hmem := cleanup_true_subset _ _ q _ hq
        rcases hfiles with hf | hf <;> rw [hf] at hmem <;>
          simp only [List.mem_cons] at hmem <;>
          rcases hmem with ⟨(h1 | h1) | h1, h2, h3⟩ <;> simp_all
      | some e =>
        rw [hib] at hq
        dsimp only at hq
        rw [send_webhook_files] at hq
        dsimp only at hq
        have hmem := cleanup_true_subset _ _ q _ hq
        rcases hfiles with hf | hf <;> rw [hf] at hmem <;>
          simp only [List.mem_cons] at hmem <;>
          rcases hmem with ⟨(h1 | h1) | h1, h2, h3⟩ <;> simp_all
  · unfold process_video_async
    cases hex : extract_google_drive_file_id job.google_drive_url with
    | none => rfl
    | some fid =>
      dsimp only
      cases hib : (inner_block env job fid (env.tempStem ++ ".tmp")
          (String.mk (pyReplace ".tmp".toList ".mp3".toList (env.tempStem ++ ".tmp").toList))
          { st with files := (env.tempStem ++ ".tmp") :: st.files }).1 with
      | none => rfl
      | some e =>
        rw [send_webhook_sent, send_webhook_sent]

/-- C8: for every endpoint and payload, `send_webhook` never raises to its
caller and makes exactly one delivery attempt with no retry, whatever the
POST outcome (non-2xx status, transport error, timeout). -/
theorem c8_notifier_never_raises_no_retry (post : Except String Nat)
    (callback_url : String) (data : Payload) (st : PState) :
    (send_webhook post callback_url data st).1 = .ok () ∧
    (send_webhook post callback_url data st).2.sentWebhooks =
      (callback_url, data) :: st.sentWebhooks :=
  ⟨send_webhook_no_raise .., send_webhook_sent ..⟩

/-- C3 counterexample: a file of exactly 25 MiB (`25 * 1024 * 1024` bytes,
hence ≥ 25 MiB as the claim requires) does not fail — the size guard uses a
strict `>` — and the network call to the speech-to-text service is made
(second component `true`): the transcription succeeds outright, refuting
both halves of the claim at this boundary input. -/
theorem c3_counterexample_at_25MiB :
    (transcribe_with_whisper
      { tempStem := "/tmp/tmpx", downloadResult := .ok (), ffmpeg := .ok,
        fileSize := fun _ => 25 * 1024 * 1024, whisperNet := .ok "hello",
        postResult := .ok 200 }
      "audio.mp3" "sk-key"
      { files := [], sentWebhooks := [], openai_api_key := none }).1 =
      (.ok "hello", true) := by
  rfl

/-- C3 amended: for every file whose size is strictly greater than
25 MiB (`25 * 1024 * 1024` bytes), `transcribe_with_whisper` fails with the
size-limit `TranscriptionError`, and the size check happens locally: no
network call to the speech-to-text service is made (second component
`false`). -/
theorem c3_oversized_fails_before_network (env : Env) (file_path api_key : String)
    (st : PState) (h : env.fileSize file_path > 25 * 1024 * 1024) :
    (transcribe_with_whisper env file_path api_key st).1 =
      (.error ("Whisper transcription failed: " ++
        "File too large for Whisper API: " ++ mbStr (env.fileSize file_path) ++
        "MB (max 25MB)"), false) := by
  unfold transcribe_with_whisper
  simp only [h, if_pos]

/-- Witness for the amended C3 at a 25 MiB + 1 byte file. -/
theorem c3_oversized_fails_before_network_witness :
    (25 * 1024 * 1024 + 1 > 25 * 1024 * 1024) ∧
    (transcribe_with_whisper
      { tempStem := "/tmp/tmpx", downloadResult := .ok (), ffmpeg := .ok,
        fileSize := fun _ => 25 * 1024 * 1024 + 1, whisperNet := .ok "hello",
        postResult := .ok 200 }
      "audio.mp3" "sk-key"
      { files := [], sentWebhooks := [], openai_api_key := none }).1 =
      (.error ("Whisper transcription failed: " ++
        "File too large for Whisper API: " ++ mbStr (25 * 1024 * 1024 + 1) ++
        "MB (max 25MB)"), false) :=
  ⟨by decide,
    c3_oversized_fails_before_network
      { tempStem := "/tmp/tmpx", downloadResult := .ok (), ffmpeg := .ok,
        fileSize := fun _ => 25 * 1024 * 1024 + 1, whisperNet := .ok "hello",
        postResult := .ok 200 }
      "audio.mp3" "sk-key"
      { files := [], sentWebhooks := [], openai_api_key := none } (by decide)⟩

/-- C4 counterexample: after a job runs to completion (terminal state
reached, webhook sent, staging cleaned up), the process-wide
`openai.api_key` global still holds the caller's credential — the code
assigns `openai.api_key = api_key` and never clears it, so the credential
is persisted in process-wide state beyond the job's lifetime, refuting the
claim. -/
theorem c4_counterexample_credential_persists :
    (process_video_async
      { tempStem := "/tmp/tmpx", downloadResult := .ok (), ffmpeg := .ok,
        fileSize := fun _ => 0, whisperNet := .ok "hi", postResult := .ok 200 }
      (fun _ => true)
      { google_drive_url := "https://drive.google.com/file/d/ABC123/view",
        callback_url := "https://cb.example/hook", row_id := .num 7,
        openai_api_key := "sk-secret" }
      { files := [], sentWebhooks := [], openai_api_key := none }).openai_api_key =
      some "sk-secret" := by
  rfl

/-- C4 amended: the credential is used only for the Transcriber call — a
job that never reaches the transcription stage (resolve failure, download
failure, or transcode hard failure) leaves the process-wide key untouched —
but it is assigned to the process-wide `openai.api_key` field, which still
holds the job's credential after the job terminates whenever the pipeline
reaches the transcription stage (by transcode success or by either
fallback). -/
theorem c4_credential_in_global_state (env : Env) (uo : String → Bool)
    (job : Job) (st : PState) :
    (reachesTranscription env job.google_drive_url = true →
      (process_video_async env uo job st).openai_api_key =
        some job.openai_api_key) ∧
    (reachesTranscription env job.google_drive_url = false →
      (process_video_async env uo job st).openai_api_key =
        st.openai_api_key) := by
  unfold process_video_async
  cases hex : extract_google_drive_file_id job.google_drive_url with
  | none =>
    constructor
    · intro hr
      rw [reachesTranscription, hex] at hr
      simp at hr
    · intro _
      exact send_webhook_key ..
  | some fid =>
    dsimp only
    obtain ⟨hkt, hkf⟩ := inner_block_key env job fid (env.tempStem ++ ".tmp")
      (String.mk (pyReplace ".tmp".toList ".mp3".toList (env.tempStem ++ ".tmp").toList))
      { st with files := (env.tempStem ++ ".tmp") :: st.files }
    have hcond : reachesTranscription env job.google_drive_url =
        (downloadOk env && transcodeSucceeds env.ffmpeg (env.tempStem ++ ".tmp")) := by
      rw [reachesTranscription, hex]
      simp
    cases hib : (inner_block env job fid (env.tempStem ++ ".tmp")
        (String.mk (pyReplace ".tmp".toList ".mp3".toList (env.tempStem ++ ".tmp").toList))
        { st with files := (env.tempStem ++ ".tmp") :: st.files }).1 with
    | none =>
      constructor
      · intro hr
        rw [hcond] at hr
        exact hkt hr
      · intro hr
        rw [hcond] at hr
        exact hkf hr
    | some e =>
      constructor
      · intro hr
        rw [hcond] at hr
        rw [send_webhook_key]
        exact hkt hr
      · intro hr
        rw [hcond] at hr
        rw [send_webhook_key]
        exact hkf hr

/-- Witness for the amended C4: a job reaching transcription through the
ffmpeg-absent fallback leaves the credential in the global afterwards, and
a job whose download fails (never reaching transcription) leaves the global
untouched. -/
theorem c4_credential_in_global_state_witness :
    (reachesTranscription
      { tempStem := "/tmp/tmpy", downloadResult := .ok (), ffmpeg := .notFound,
        fileSize := fun _ => 0, whisperNet := .ok "hi", postResult := .ok 200 }
      "https://drive.google.com/open?id=XYZ" = true) ∧
    ((process_video_async
      { tempStem := "/tmp/tmpy", downloadResult := .ok (), ffmpeg := .notFound,
        fileSize := fun _ => 0, whisperNet := .ok "hi", postResult := .ok 200 }
      (fun _ => true)
      { google_drive_url := "https://drive.google.com/open?id=XYZ",
        callback_url := "https://cb.example/hook", row_id := .str "r1",
        openai_api_key := "sk-other" }
      { files := [], sentWebhooks := [], openai_api_key := none }).openai_api_key =
        some "sk-other") ∧
    (reachesTranscription
      { tempStem := "/tmp/tmpy", downloadResult := .error "connection reset",
        ffmpeg := .notFound, fileSize := fun _ => 0, whisperNet := .ok "hi",
        postResult := .ok 200 }
      "https://drive.google.com/open?id=XYZ" = false) ∧
    ((process_video_async
      { tempStem := "/tmp/tmpy", downloadResult := .error "connection reset",
        ffmpeg := .notFound, fileSize := fun _ => 0, whisperNet := .ok "hi",
        postResult := .ok 200 }
      (fun _ => true)
      { google_drive_url := "https://drive.google.com/open?id=XYZ",
        callback_url := "https://cb.example/hook", row_id := .str "r1",
        openai_api_key := "sk-other" }
      { files := [], sentWebhooks := [], openai_api_key := none }).openai_api_key =
        none) :=
  ⟨by decide,
    (c4_credential_in_global_state
      { tempStem := "/tmp/tmpy", downloadResult := .ok (), ffmpeg := .notFound,
        fileSize := fun _ => 0, whisperNet := .ok "hi", postResult := .ok 200 }
      (fun _ => true)
      { google_drive_url := "https://drive.google.com/open?id=XYZ",
        callback_url := "https://cb.example/hook", row_id := .str "r1",
        openai_api_key := "sk-other" }
      { files := [], sentWebhooks := [], openai_api_key := none }).1 (by decide),
    by decide,
    (c4_credential_in_global_state
      { tempStem := "/tmp/tmpy", downloadResult := .error "connection reset",
        ffmpeg := .notFound, fileSize := fun _ => 0, whisperNet := .ok "hi",
        postResult := .ok 200 }
      (fun _ => true)
      { google_drive_url := "https://drive.google.com/open?id=XYZ",
        callback_url := "https://cb.example/hook", row_id := .str "r1",
        openai_api_key := "sk-other" }
      { files := [], sentWebhooks := [], openai_api_key := none }).2 (by decide)⟩

/-- C5: for every input file whose (lower-cased) name ends in `.mp3`,
`.wav`, `.m4a` or `.flac`, a non-zero ffmpeg exit makes `convert_to_audio`
return the original input path rather than an error; and for every input,
an absent ffmpeg binary (`FileNotFoundError`) also makes it return the
original input path. -/
theorem c5_transcode_fallbacks_return_input (input_path : String) :
    (isAudioExt input_path = true →
      ∀ (stderr : String) (madeOutput : Bool) (output_path : String)
        (files : List String),
        (convert_to_audio (.procErr stderr madeOutput) input_path output_path
          files).1 = .ok input_path) ∧
    (∀ (output_path : String) (files : List String),
      (convert_to_audio .notFound input_path output_path files).1 =
        .ok input_path) := by
  constructor
  · intro h stderr madeOutput output_path files
    simp [convert_to_audio, h]
  · intro output_path files
    rfl

/-- Witness for C5 at a `.mp3` input with a failing utility and a `.mp4`
input with an absent utility. -/
theorem c5_transcode_fallbacks_return_input_witness :
    isAudioExt "clip.mp3" = true ∧
    (convert_to_audio (.procErr "boom" false) "clip.mp3" "out.mp3" []).1 =
      .ok "clip.mp3" ∧
    (convert_to_audio .notFound "video.mp4" "out.mp3" []).1 = .ok "video.mp4" :=
  ⟨by decide,
    (c5_transcode_fallbacks_return_input "clip.mp3").1 (by decide) "boom" false
      "out.mp3" [],
    (c5_transcode_fallbacks_return_input "video.mp4").2 "out.mp3" []⟩

/-- C6: for every input file whose name does not end in a recognized audio
extension, a non-zero ffmpeg exit makes `convert_to_audio` fail with the
`TranscodeError` carrying the utility's diagnostic output (its captured
stderr). -/
theorem c6_transcode_hard_failure (input_path : String)
    (h : isAudioExt input_path = false) (stderr : String) (madeOutput : Bool)
    (output_path : String) (files : List String) :
    (convert_to_audio (.procErr stderr madeOutput) input_path output_path
      files).1 =
      .error ("Could not convert video to audio format. FFmpeg error: " ++ stderr) := by
  simp [convert_to_audio, h]

/-- Witness for C6 at a `.mp4` input. -/
theorem c6_transcode_hard_failure_witness :
    isAudioExt "video.mp4" = false ∧
    (convert_to_audio (.procErr "bad container" true) "video.mp4" "out.mp3" []).1 =
      .error ("Could not convert video to audio format. FFmpeg error: " ++
        "bad container") :=
  ⟨by decide,
    c6_transcode_hard_failure "video.mp4" (by decide) "bad container" true
      "out.mp3" []⟩

/-- C7: for every reference string matching at least one of the three
recognized patterns, `extract_google_drive_file_id` returns the captured
identifier of the first matching pattern in the fixed priority order
(path-style, then query-parameter, then open query-parameter); for every
string matching none, resolution fails — the extractor returns `None` and
the orchestrator's `ValueError` becomes the job's failure Outcome. -/
theorem c7_resolver_priority_and_failure (url cb : String) (rid : JVal)
    (key : String) (env : Env) (uo : String → Bool) (st : PState) :
    (∀ cap, searchPat "/file/d/".toList url.toList = some cap →
      extract_google_drive_file_id url = some (String.mk cap)) ∧
    (searchPat "/file/d/".toList url.toList = none →
      ∀ cap, searchPat "id=".toList url.toList = some cap →
        extract_google_drive_file_id url = some (String.mk cap)) ∧
    (searchPat "/file/d/".toList url.toList = none →
      searchPat "id=".toList url.toList = none →
      ∀ cap, searchPat "/open?id=".toList url.toList = some cap →
        extract_google_drive_file_id url = some (String.mk cap)) ∧
    (searchPat "/file/d/".toList url.toList = none →
      searchPat "id=".toList url.toList = none →
      searchPat "/open?id=".toList url.toList = none →
      extract_google_drive_file_id url = none ∧
      (process_video_async env uo
        { google_drive_url := url, callback_url := cb, row_id := rid,
          openai_api_key := key } st).sentWebhooks =
        (cb, .failure rid "Could not extract file ID from Google Drive URL")
          :: st.sentWebhooks) := by
  refine ⟨fun cap h1 => ?_, fun h1 cap h2 => ?_, fun h1 h2 cap h3 => ?_,
    fun h1 h2 h3 => ?_⟩
  · unfold extract_google_drive_file_id
    rw [h1]
  · unfold extract_google_drive_file_id
    rw [h1, h2]
  · unfold extract_google_drive_file_id
    rw [h1, h2, h3]
  · have hex : extract_google_drive_file_id url = none := by
      unfold extract_google_drive_file_id
      rw [h1, h2, h3]
    refine ⟨hex, ?_⟩
    unfold process_video_async
    dsimp only
    rw [hex]
    exact send_webhook_sent ..

/-- Witness for C7: the spec's scenario URL matches the path-style pattern
with capture `ABC123`, and the resolver returns it. -/
theorem c7_resolver_priority_and_failure_witness :
    searchPat "/file/d/".toList
        "https://drive.google.com/file/d/ABC123/view".toList =
      some "ABC123".toList ∧
    extract_google_drive_file_id "https://drive.google.com/file/d/ABC123/view" =
      some (String.mk "ABC123".toList) :=
  ⟨by decide,
    (c7_resolver_priority_and_failure
      "https://drive.google.com/file/d/ABC123/view" "https://cb.example/hook"
      (.num 0) "k"
      { tempStem := "/tmp/tmpz", downloadResult := .ok (), ffmpeg := .ok,
        fileSize := fun _ => 0, whisperNet := .ok "", postResult := .ok 200 }
      (fun _ => true)
      { files := [], sentWebhooks := [], openai_api_key := none }).1
      "ABC123".toList (by decide)⟩

/-- The first of the four required fields that is not a key of the given
JSON object's field list (specification helper for stating C9). -/
def firstMissingField (fields : List (String × JVal)) : Option String :=
  (required_fields.filter (fun g => !(fields.any (fun kv => kv.1 == g)))).head?

/-- C9: for every JSON-object request body missing at least one of the four
required fields, the handler returns HTTP 400 with body
`{error: "Missing required field: <field>"}` naming the first missing field
in the fixed order, and no background job is started. -/
theorem c9_missing_field_400_no_job (fields : List (String × JVal)) (f : String)
    (h : firstMissingField fields = some f) :
    process_video (.obj fields) =
      ((400, .fieldError ("Missing required field: " ++ f)), false) := by
  unfold firstMissingField at h
  cases hb1 : fields.any (fun kv => kv.1 == "google_drive_url") <;>
  cases hb2 : fields.any (fun kv => kv.1 == "callback_url") <;>
  cases hb3 : fields.any (fun kv => kv.1 == "row_id") <;>
  cases hb4 : fields.any (fun kv => kv.1 == "openai_api_key") <;>
  simp only [required_fields, List.filter_cons, List.filter_nil, hb1, hb2, hb3,
    hb4, Bool.not_true, Bool.not_false, if_pos, if_neg, ite_true, ite_false,
    Bool.false_eq_true, not_false_eq_true, List.head?_cons, List.head?_nil,
    Option.some.injEq, reduceCtorEq] at h <;>
  first
    | exact absurd h (by simp)
    | (subst h
       simp [process_video, findMissing, pyContains, required_fields, hb1, hb2,
         hb3, hb4])

/-- Witness for C9: the spec's scenario — a body with `callback_url`
absent — yields 400 naming `callback_url`, and no job starts. -/
theorem c9_missing_field_400_no_job_witness :
    (firstMissingField [("google_drive_url", JVal.str "u"), ("row_id", JVal.num 7),
      ("openai_api_key", JVal.str "k")] = some "callback_url") ∧
    process_video (.obj [("google_drive_url", JVal.str "u"),
        ("row_id", JVal.num 7), ("openai_api_key", JVal.str "k")]) =
      ((400, .fieldError ("Missing required field: " ++ "callback_url")), false) :=
  ⟨by decide,
    c9_missing_field_400_no_job
      [("google_drive_url", JVal.str "u"), ("row_id", JVal.num 7),
        ("openai_api_key", JVal.str "k")] "callback_url" (by decide)⟩

/-- C10 counterexample: a request body parsing to the JSON array `[]` — a
non-object JSON value — does not get a 500: Python's `in` works on lists,
finds no field, and the handler returns the 400 missing-field response,
refuting the claim for non-object values in general. -/
theorem c10_counterexample_array_gets_400 :
    process_video (.arr []) =
      ((400, .fieldError ("Missing required field: " ++ "google_drive_url")),
        false) := by
  rfl

/-- JSON values on which Python's `in` raises `TypeError`: `null`,
booleans and numbers (arrays, strings and objects all support `in`). -/
def nonIterable : JVal → Bool
  | .null => true
  | .bool _ => true
  | .num _ => true
  | _ => false

/-- C10 amended: for every request body parsing to JSON `null`, a boolean,
or a number, the membership test `field in data` raises `TypeError` before
validation can report a missing field, so the handler returns HTTP 500 with
an error body and starts no background job.  This does not extend to every
non-object JSON value: the counterexample's empty-array body gets a 400
missing-field response instead. -/
theorem c10_non_iterable_body_500 (data : JVal)
    (h : nonIterable data = true) :
    (process_video data).1.1 = 500 ∧ (process_video data).2 = false := by
  cases data <;> simp [nonIterable] at h <;> exact ⟨rfl, rfl⟩

/-- Witness for the amended C10 at the body `null`. -/
theorem c10_non_iterable_body_500_witness :
    nonIterable .null = true ∧
    (process_video .null).1.1 = 500 ∧ (process_video .null).2 = false :=
  ⟨rfl, c10_non_iterable_body_500 .null rfl⟩

end ContentClipping
